import Mathlib

/-!
Shallow embedding of `vulkpy/vkarray.py`: the asynchronous operation-dispatch
and dependency-tracking engine (class `GPU` and class `Array`).

Modelling conventions:
* Device-side identifiers (buffers, jobs, compiled-operation handles) are
  natural numbers handed out by counters in `GPUState`.
* `GPUState` carries the `functools.cache` memo of `GPU._createOp` as an
  association list, a log of every device submission issued via
  `GPU._submit` / `gpu.submit`, a log of the host-side blocking waits
  (`Job.wait()`), and a log of host-side buffer writes (`__setitem__`).
* Scalars passed to kernels are carried opaquely as `Int`; no claim depends
  on scalar arithmetic, only on which kernel is selected and how the scalar
  is packed.
* Exceptions (`ValueError`) are modelled with `Except String`; operations
  return the post-state of every object the Python code can mutate, so an
  error result together with unchanged post-states states exactly that the
  raise happened before any mutation or submission.
-/

namespace Vulkpy

/-- Shape of an array: ordered sequence of dimension sizes
(`self.shape` in the Python source). -/
abbrev Shape := List Nat

/-- Parameter packings (`_vkarray.VectorParams`, `VectorScalarParams`,
`VectorScalar2Params`, `MatMulParams`): value types passed per submission
and part of the `functools.cache` key of `GPU._createOp`. -/
inductive Params where
  | vector (size : Nat)
  | vectorScalar (size : Nat) (scalar : Int)
  | vectorScalar2 (size : Nat) (s1 s2 : Int)
  | matmul (rowA contractSize columnB : Nat)
deriving DecidableEq

/-- Data shape argument of a submission (`_vkarray.DataShape(x, y, z)`). -/
structure DataShape where
  x : Nat
  y : Nat
  z : Nat
deriving DecidableEq

/-- Cache key of `GPU._createOp` (decorated with `functools.cache`):
the shader file name, the number of buffers, the parameter packing value,
and the workgroup (subgroup) sizes. -/
structure OpKey where
  spv : String
  n : Nat
  params : Params
  local_size_x : Nat
  local_size_y : Nat
  local_size_z : Nat
deriving DecidableEq

/-- Record of one device submission issued by `gpu.submit` inside
`GPU._submit`: the resolved key and compiled-operation handle, the buffer
ids in role order, the data shape, the packed parameters and the
wait-semaphores (job ids). -/
structure Submission where
  key : OpKey
  op : Nat
  buffers : List Nat
  dshape : DataShape
  params : Params
  semaphores : List Nat
deriving DecidableEq

/-- State of one `GPU` instance plus the observable host/device interaction:
the memo table of `_createOp`, fresh-id counters, the submission log, the
log of blocking `Job.wait()` calls and the log of host-side buffer writes. -/
structure GPUState where
  opCache : List (OpKey × Nat)
  nextOp : Nat
  nextBuffer : Nat
  nextJob : Nat
  submissions : List Submission
  hostWaits : List Nat
  hostWrites : List Nat
deriving DecidableEq

/-- Freshly created `GPU` (`GPU.__init__`): empty cache and logs. -/
def GPUState.init : GPUState := ⟨[], 0, 0, 0, [], [], []⟩

/-- Lookup in the `functools.cache` memo table of `_createOp`. -/
def findOp : List (OpKey × Nat) → OpKey → Option Nat
  | [], _ => none
  | (k, h) :: rest, key => if k = key then some h else findOp rest key

/-- Embeds `GPU._createOp` together with its `functools.cache` decorator:
return the stored handle on a hit; on a miss compile (`gpu.createOp`,
modelled as drawing a fresh handle) and store the result. -/
def createOp (g : GPUState) (key : OpKey) : Nat × GPUState :=
  match findOp g.opCache key with
  | some h => (h, g)
  | none =>
      let h := g.nextOp
      (h, { g with nextOp := g.nextOp + 1, opCache := (key, h) :: g.opCache })

/-- Embeds `GPU._submit`: resolve the compiled operation through the cache
with key `(spv, len(buffers), params, local sizes)`, then issue a
non-blocking submission (`gpu.submit`) and return the fresh `Job` id. -/
def gpuSubmit (g : GPUState) (spv : String)
    (lsx lsy lsz : Nat) (buffers : List Nat) (dshape : DataShape)
    (params : Params) (semaphores : List Nat) : Nat × GPUState :=
  let key : OpKey := ⟨spv, buffers.length, params, lsx, lsy, lsz⟩
  let op := (createOp g key).1
  let g1 := (createOp g key).2
  let job := g1.nextJob
  (job, { g1 with
            nextJob := g1.nextJob + 1,
            submissions := g1.submissions ++
              [⟨key, op, buffers, dshape, params, semaphores⟩] })

/-- Logical tensor (`class Array`): shape, exclusively owned device buffer
(identity and allocated element count), and the optional pending-job
reference `self.job`. -/
structure Array where
  shape : Shape
  bufferId : Nat
  bufferSize : Nat
  job : Option Nat
deriving DecidableEq

/-- Embeds `Array.__init__(gpu, shape=shape)`: allocate a fresh device
buffer of `shape.prod` elements (`gpu.createBuffer(int(self.shape.prod()))`)
and start with no pending job (`self.job = None`). -/
def newArray (g : GPUState) (shape : Shape) : Array × GPUState :=
  (⟨shape, g.nextBuffer, shape.prod, none⟩,
   { g with nextBuffer := g.nextBuffer + 1 })

/-- Second operand of a dispatching dunder (`Union[Array, float]`):
`isinstance(other, Array)` chooses between the two constructors. -/
inductive Operand where
  | arr (a : Array)
  | scalar (c : Int)
deriving DecidableEq

/-- Embeds `Array._check_shape`: `np.array_equal(self.shape, other.shape)`
or raise `ValueError`. -/
def check_shape (self other : Array) : Except String Unit :=
  if self.shape = other.shape then .ok () else .error "Incompatible shapes"

/-- Embeds `Array._opVec`: submit `spv` with workgroup `(64, 1, 1)`, data
shape `(size, 1, 1)` for `size = self.buffer.size()`, `VectorParams(size)`,
and the semaphores of exactly those buffers whose `job` is not `None`. -/
def opVec (g : GPUState) (self : Array) (spv : String) (buffers : List Array) :
    Nat × GPUState :=
  let size := self.bufferSize
  gpuSubmit g spv 64 1 1 (buffers.map (·.bufferId)) ⟨size, 1, 1⟩
    (.vector size) (buffers.filterMap (·.job))

/-- Embeds `Array._opVec3` (binary out-of-place): check shapes, allocate the
result Array, submit over `[self, other, ret]` and attach the job to `ret`.
Returns `(result, self, other, gpu)` post-states. -/
def opVec3 (g : GPUState) (self other : Array) (spv : String) :
    Except String Array × Array × Array × GPUState :=
  match check_shape self other with
  | .error e => (.error e, self, other, g)
  | .ok _ =>
      let (ret, g1) := newArray g self.shape
      let (job, g2) := opVec g1 self spv [self, other, ret]
      (.ok { ret with job := some job }, self, other, g2)

/-- Embeds `Array._opVec2` with `other` given (binary in-place): check
shapes, submit over `[self, other]` — the semaphores capture the pending
jobs before the assignment — then overwrite `self.job`. -/
def opVec2i (g : GPUState) (self other : Array) (spv : String) :
    Except String Unit × Array × Array × GPUState :=
  match check_shape self other with
  | .error e => (.error e, self, other, g)
  | .ok _ =>
      let (job, g1) := opVec g self spv [self, other]
      (.ok (), { self with job := some job }, other, g1)

/-- Embeds `Array._opVec2` with `other = None` (unary out-of-place):
allocate the result, submit over `[self, ret]`, attach the job to `ret`. -/
def opVec2o (g : GPUState) (self : Array) (spv : String) :
    Array × Array × GPUState :=
  let (ret, g1) := newArray g self.shape
  let (job, g2) := opVec g1 self spv [self, ret]
  ({ ret with job := some job }, self, g2)

/-- Embeds `Array._opVec1` (unary in-place): submit over `[self]` and
overwrite `self.job`. -/
def opVec1 (g : GPUState) (self : Array) (spv : String) : Array × GPUState :=
  let (job, g1) := opVec g self spv [self]
  ({ self with job := some job }, g1)

/-- Embeds `Array._opVecScalar`: like `_opVec` but packing
`VectorScalarParams(size, scalar)`. -/
def opVecScalar (g : GPUState) (self : Array) (spv : String)
    (buffers : List Array) (scalar : Int) : Nat × GPUState :=
  let size := self.bufferSize
  gpuSubmit g spv 64 1 1 (buffers.map (·.bufferId)) ⟨size, 1, 1⟩
    (.vectorScalar size scalar) (buffers.filterMap (·.job))

/-- Embeds `Array._opVecScalar2` (scalar out-of-place): allocate the result,
submit over `[self, ret]` with the scalar, attach the job to `ret`. -/
def opVecScalar2 (g : GPUState) (self : Array) (spv : String) (other : Int) :
    Array × Array × GPUState :=
  let (ret, g1) := newArray g self.shape
  let (job, g2) := opVecScalar g1 self spv [self, ret] other
  ({ ret with job := some job }, self, g2)

/-- Embeds `Array._opVecScalar1` (scalar in-place): submit over `[self]`
with the scalar and overwrite `self.job`. -/
def opVecScalar1 (g : GPUState) (self : Array) (spv : String) (other : Int) :
    Array × GPUState :=
  let (job, g1) := opVecScalar g self spv [self] other
  ({ self with job := some job }, g1)

/-- Embeds `Array._opVec2Scalar`: like `_opVec` but packing
`VectorScalar2Params(size, s1, s2)`. -/
def opVec2Scalar (g : GPUState) (self : Array) (spv : String)
    (buffers : List Array) (s1 s2 : Int) : Nat × GPUState :=
  let size := self.bufferSize
  gpuSubmit g spv 64 1 1 (buffers.map (·.bufferId)) ⟨size, 1, 1⟩
    (.vectorScalar2 size s1 s2) (buffers.filterMap (·.job))

/-- Directory prefixed to every shader file name
(`shader_dir = os.path.join(os.path.dirname(__file__), "shader")`,
kept relative in the model). -/
def shader_dir : String := "shader"

/-- Embeds `os.path.join(shader_dir, name)`. -/
def shaderPath (s : String) : String := shader_dir ++ "/" ++ s

/-- Kernel path constant `Array._add`. -/
def add_spv : String := shaderPath "add.spv"

/-- Kernel path constant `Array._sub`. -/
def sub_spv : String := shaderPath "sub.spv"

/-- Kernel path constant `Array._mul`. -/
def mul_spv : String := shaderPath "mul.spv"

/-- Kernel path constant `Array._div`. -/
def div_spv : String := shaderPath "div.spv"

/-- Kernel path constant `Array._iadd`. -/
def iadd_spv : String := shaderPath "iadd.spv"

/-- Kernel path constant `Array._isub`. -/
def isub_spv : String := shaderPath "isub.spv"

/-- Kernel path constant `Array._imul`. -/
def imul_spv : String := shaderPath "imul.spv"

/-- Kernel path constant `Array._idiv`. -/
def idiv_spv : String := shaderPath "idiv.spv"

/-- Kernel path constant `Array._add_scalar`. -/
def add_scalar_spv : String := shaderPath "add_scalar.spv"

/-- Kernel path constant `Array._sub_scalar`. -/
def sub_scalar_spv : String := shaderPath "sub_scalar.spv"

/-- Kernel path constant `Array._mul_scalar`. -/
def mul_scalar_spv : String := shaderPath "mul_scalar.spv"

/-- Kernel path constant `Array._div_scalar`. -/
def div_scalar_spv : String := shaderPath "div_scalar.spv"

/-- Kernel path constant `Array._iadd_scalar`. -/
def iadd_scalar_spv : String := shaderPath "iadd_scalar.spv"

/-- Kernel path constant `Array._isub_scalar`. -/
def isub_scalar_spv : String := shaderPath "isub_scalar.spv"

/-- Kernel path constant `Array._imul_scalar`. -/
def imul_scalar_spv : String := shaderPath "imul_scalar.spv"

/-- Kernel path constant `Array._idiv_scalar`. -/
def idiv_scalar_spv : String := shaderPath "idiv_scalar.spv"

/-- Kernel path constant `Array._rsub_scalar`. -/
def rsub_scalar_spv : String := shaderPath "rsub_scalar.spv"

/-- Kernel path constant `Array._rdiv_scalar`. -/
def rdiv_scalar_spv : String := shaderPath "rdiv_scalar.spv"

/-- Kernel path constant `Array._matmul`. -/
def matmul_spv : String := shaderPath "matmul.spv"

/-- Kernel path constant `Array._max`. -/
def max_spv : String := shaderPath "max.spv"

/-- Kernel path constant `Array._min`. -/
def min_spv : String := shaderPath "min.spv"

/-- Kernel path constant `Array._imax`. -/
def imax_spv : String := shaderPath "imax.spv"

/-- Kernel path constant `Array._imin`. -/
def imin_spv : String := shaderPath "imin.spv"

/-- Kernel path constant `Array._max_scalar`. -/
def max_scalar_spv : String := shaderPath "max_scalar.spv"

/-- Kernel path constant `Array._min_scalar`. -/
def min_scalar_spv : String := shaderPath "min_scalar.spv"

/-- Kernel path constant `Array._imax_scalar`. -/
def imax_scalar_spv : String := shaderPath "imax_scalar.spv"

/-- Kernel path constant `Array._imin_scalar`. -/
def imin_scalar_spv : String := shaderPath "imin_scalar.spv"

/-- Kernel path constant `Array._pow`. -/
def pow_spv : String := shaderPath "pow.spv"

/-- Kernel path constant `Array._ipow`. -/
def ipow_spv : String := shaderPath "ipow.spv"

/-- Kernel path constant `Array._pow_scalar`. -/
def pow_scalar_spv : String := shaderPath "pow_scalar.spv"

/-- Kernel path constant `Array._ipow_scalar`. -/
def ipow_scalar_spv : String := shaderPath "ipow_scalar.spv"

/-- Kernel path constant `Array._rpow_scalar`. -/
def rpow_scalar_spv : String := shaderPath "rpow_scalar.spv"

/-- Kernel path constant `Array._clamp`. -/
def clamp_spv : String := shaderPath "clamp.spv"

/-- Kernel path constant `Array._iclamp`. -/
def iclamp_spv : String := shaderPath "iclamp.spv"

/-- Kernel path constant `Array._clamp_sv`. -/
def clamp_sv_spv : String := shaderPath "clamp_sv.spv"

/-- Kernel path constant `Array._iclamp_sv`. -/
def iclamp_sv_spv : String := shaderPath "iclamp_sv.spv"

/-- Kernel path constant `Array._clamp_vs`. -/
def clamp_vs_spv : String := shaderPath "clamp_vs.spv"

/-- Kernel path constant `Array._iclamp_vs`. -/
def iclamp_vs_spv : String := shaderPath "iclamp_vs.spv"

/-- Kernel path constant `Array._clamp_ss`. -/
def clamp_ss_spv : String := shaderPath "clamp_ss.spv"

/-- Kernel path constant `Array._iclamp_ss`. -/
def iclamp_ss_spv : String := shaderPath "iclamp_ss.spv"

/-- Embeds `Array.__add__`: `_opVec3(_add, other)` for an Array operand,
`_opVecScalar2(_add_scalar, other)` for a scalar. Result components:
(returned value, post-state of `self`, post-state of the GPU). -/
def add (g : GPUState) (self : Array) (other : Operand) :
    Except String Array × Array × GPUState :=
  match other with
  | .arr o =>
      let (r, s, _, g1) := opVec3 g self o add_spv
      (r, s, g1)
  | .scalar c =>
      let (ret, s, g1) := opVecScalar2 g self add_scalar_spv c
      (.ok ret, s, g1)

/-- Embeds `Array.__sub__`. -/
def sub (g : GPUState) (self : Array) (other : Operand) :
    Except String Array × Array × GPUState :=
  match other with
  | .arr o =>
      let (r, s, _, g1) := opVec3 g self o sub_spv
      (r, s, g1)
  | .scalar c =>
      let (ret, s, g1) := opVecScalar2 g self sub_scalar_spv c
      (.ok ret, s, g1)

/-- Embeds `Array.__mul__`. -/
def mul (g : GPUState) (self : Array) (other : Operand) :
    Except String Array × Array × GPUState :=
  match other with
  | .arr o =>
      let (r, s, _, g1) := opVec3 g self o mul_spv
      (r, s, g1)
  | .scalar c =>
      let (ret, s, g1) := opVecScalar2 g self mul_scalar_spv c
      (.ok ret, s, g1)

/-- Embeds `Array.__truediv__`. -/
def truediv (g : GPUState) (self : Array) (other : Operand) :
    Except String Array × Array × GPUState :=
  match other with
  | .arr o =>
      let (r, s, _, g1) := opVec3 g self o div_spv
      (r, s, g1)
  | .scalar c =>
      let (ret, s, g1) := opVecScalar2 g self div_scalar_spv c
      (.ok ret, s, g1)

/-- Embeds `Array.__pow__`. -/
def pow (g : GPUState) (self : Array) (other : Operand) :
    Except String Array × Array × GPUState :=
  match other with
  | .arr o =>
      let (r, s, _, g1) := opVec3 g self o pow_spv
      (r, s, g1)
  | .scalar c =>
      let (ret, s, g1) := opVecScalar2 g self pow_scalar_spv c
      (.ok ret, s, g1)

/-- Embeds `Array.__iadd__`: `_opVec2(_iadd, other)` for an Array operand,
`_opVecScalar1(_iadd_scalar, other)` for a scalar; then `return self`.
Result components: (returned value, post-state of `self`, GPU). -/
def iadd (g : GPUState) (self : Array) (other : Operand) :
    Except String Array × Array × GPUState :=
  match other with
  | .arr o =>
      let (r, s, _, g1) := opVec2i g self o iadd_spv
      (r.map fun _ => s, s, g1)
  | .scalar c =>
      let (s, g1) := opVecScalar1 g self iadd_scalar_spv c
      (.ok s, s, g1)

/-- Embeds `Array.__isub__`. -/
def isub (g : GPUState) (self : Array) (other : Operand) :
    Except String Array × Array × GPUState :=
  match other with
  | .arr o =>
      let (r, s, _, g1) := opVec2i g self o isub_spv
      (r.map fun _ => s, s, g1)
  | .scalar c =>
      let (s, g1) := opVecScalar1 g self isub_scalar_spv c
      (.ok s, s, g1)

/-- Embeds `Array.__imul__`. -/
def imul (g : GPUState) (self : Array) (other : Operand) :
    Except String Array × Array × GPUState :=
  match other with
  | .arr o =>
      let (r, s, _, g1) := opVec2i g self o imul_spv
      (r.map fun _ => s, s, g1)
  | .scalar c =>
      let (s, g1) := opVecScalar1 g self imul_scalar_spv c
      (.ok s, s, g1)

/-- Embeds `Array.__itruediv__`. -/
def itruediv (g : GPUState) (self : Array) (other : Operand) :
    Except String Array × Array × GPUState :=
  match other with
  | .arr o =>
      let (r, s, _, g1) := opVec2i g self o idiv_spv
      (r.map fun _ => s, s, g1)
  | .scalar c =>
      let (s, g1) := opVecScalar1 g self idiv_scalar_spv c
      (.ok s, s, g1)

/-- Embeds `Array.__ipow__`. -/
def ipow (g : GPUState) (self : Array) (other : Operand) :
    Except String Array × Array × GPUState :=
  match other with
  | .arr o =>
      let (r, s, _, g1) := opVec2i g self o ipow_spv
      (r.map fun _ => s, s, g1)
  | .scalar c =>
      let (s, g1) := opVecScalar1 g self ipow_scalar_spv c
      (.ok s, s, g1)

/-- Embeds `Array.__radd__`: `_opVecScalar2(_add_scalar, other)` — the same
non-reversed scalar kernel as the scalar branch of `__add__`. -/
def radd (g : GPUState) (self : Array) (other : Int) :
    Array × Array × GPUState :=
  opVecScalar2 g self add_scalar_spv other

/-- Embeds `Array.__rsub__`: `_opVecScalar2(_rsub_scalar, other)`. -/
def rsub (g : GPUState) (self : Array) (other : Int) :
    Array × Array × GPUState :=
  opVecScalar2 g self rsub_scalar_spv other

/-- Embeds `Array.__rmul__`: `_opVecScalar2(_mul_scalar, other)` — the same
non-reversed scalar kernel as the scalar branch of `__mul__`. -/
def rmul (g : GPUState) (self : Array) (other : Int) :
    Array × Array × GPUState :=
  opVecScalar2 g self mul_scalar_spv other

/-- Embeds `Array.__rtruediv__`: `_opVecScalar2(_rdiv_scalar, other)`. -/
def rtruediv (g : GPUState) (self : Array) (other : Int) :
    Array × Array × GPUState :=
  opVecScalar2 g self rdiv_scalar_spv other

/-- Embeds `Array.__rpow__`: `_opVecScalar2(_rpow_scalar, other)`. -/
def rpow (g : GPUState) (self : Array) (other : Int) :
    Array × Array × GPUState :=
  opVecScalar2 g self rpow_scalar_spv other

/-- Embeds `Array.max(other, inplace)`: dispatch on operand kind and the
`inplace` flag to `_imax` / `_max` / `_imax_scalar` / `_max_scalar`.
Returns `none` in the in-place case (Python returns `None`). -/
def max (g : GPUState) (self : Array) (other : Operand) (inplace : Bool) :
    Except String (Option Array) × Array × GPUState :=
  match other with
  | .arr o =>
      if inplace then
        let (r, s, _, g1) := opVec2i g self o imax_spv
        (r.map fun _ => none, s, g1)
      else
        let (r, s, _, g1) := opVec3 g self o max_spv
        (r.map fun ret => some ret, s, g1)
  | .scalar c =>
      if inplace then
        let (s, g1) := opVecScalar1 g self imax_scalar_spv c
        (.ok none, s, g1)
      else
        let (ret, s, g1) := opVecScalar2 g self max_scalar_spv c
        (.ok (some ret), s, g1)

/-- Embeds `Array.min(other, inplace)`. -/
def min (g : GPUState) (self : Array) (other : Operand) (inplace : Bool) :
    Except String (Option Array) × Array × GPUState :=
  match other with
  | .arr o =>
      if inplace then
        let (r, s, _, g1) := opVec2i g self o imin_spv
        (r.map fun _ => none, s, g1)
      else
        let (r, s, _, g1) := opVec3 g self o min_spv
        (r.map fun ret => some ret, s, g1)
  | .scalar c =>
      if inplace then
        let (s, g1) := opVecScalar1 g self imin_scalar_spv c
        (.ok none, s, g1)
      else
        let (ret, s, g1) := opVecScalar2 g self min_scalar_spv c
        (.ok (some ret), s, g1)

/-- Embeds `Array.__matmul__`: validate ranks (each at most 3) and the
inner dimensions (`self.shape[-1] == other.shape[0]`), compute the result
shape `tuple(self.shape)[:-1] + tuple(other.shape)[1:]` collapsed to `(1,)`
when empty, then submit the matmul kernel with workgroup `(1, 64, 1)`,
data shape `(rowA, columnB, 1)` and `MatMulParams(rowA, contractSize,
columnB)`, waiting on the pending jobs of `self` and `other`. -/
def matmul (g : GPUState) (self other : Array) :
    Except String Array × Array × Array × GPUState :=
  if self.shape.length > 3 ∨ other.shape.length > 3 ∨
      self.shape.getLastD 0 ≠ other.shape.headD 0 then
    (.error "Incompatible shapes", self, other, g)
  else
    let shape0 := self.shape.dropLast ++ other.shape.tail
    let shape := if shape0 = [] then [1] else shape0
    let rowA := if self.shape.length > 1 then self.shape.headD 0 else 1
    let contractSize := self.shape.getLastD 0
    let columnB := if other.shape.length > 1 then other.shape.getD 1 0 else 1
    let (ret0, g1) := newArray g shape
    let (job, g2) := gpuSubmit g1 matmul_spv 1 64 1
        [self.bufferId, other.bufferId, ret0.bufferId]
        ⟨rowA, columnB, 1⟩ (.matmul rowA contractSize columnB)
        ([self, other].filterMap (·.job))
    (.ok { ret0 with job := some job }, self, other, g2)

/-- Embeds `Array.clamp(min, max, inplace)`: each Array-valued bound is
shape-checked against `self` (`min` first, then `max`), then exactly one of
the eight kernel variants is selected by the bound kinds and the `inplace`
flag. Returns `none` in the in-place case (Python returns `None`). -/
def clamp (g : GPUState) (self : Array) (mn mx : Operand) (inplace : Bool) :
    Except String (Option Array) × Array × GPUState :=
  match (match mn with | .arr a => check_shape self a | .scalar _ => .ok ()) with
  | .error e => (.error e, self, g)
  | .ok _ =>
  match (match mx with | .arr a => check_shape self a | .scalar _ => .ok ()) with
  | .error e => (.error e, self, g)
  | .ok _ =>
  if !inplace then
    let (ret0, g1) := newArray g self.shape
    match mn, mx with
    | .arr mna, .arr mxa =>
        let (job, g2) := opVec g1 self clamp_spv [self, mna, mxa, ret0]
        (.ok (some { ret0 with job := some job }), self, g2)
    | .scalar mnc, .arr mxa =>
        let (job, g2) := opVecScalar g1 self clamp_sv_spv [self, mxa, ret0] mnc
        (.ok (some { ret0 with job := some job }), self, g2)
    | .arr mna, .scalar mxc =>
        let (job, g2) := opVecScalar g1 self clamp_vs_spv [self, mna, ret0] mxc
        (.ok (some { ret0 with job := some job }), self, g2)
    | .scalar mnc, .scalar mxc =>
        let (job, g2) := opVec2Scalar g1 self clamp_ss_spv [self, ret0] mnc mxc
        (.ok (some { ret0 with job := some job }), self, g2)
  else
    match mn, mx with
    | .arr mna, .arr mxa =>
        let (job, g1) := opVec g self iclamp_spv [self, mna, mxa]
        (.ok none, { self with job := some job }, g1)
    | .scalar mnc, .arr mxa =>
        let (job, g1) := opVecScalar g self iclamp_sv_spv [self, mxa] mnc
        (.ok none, { self with job := some job }, g1)
    | .arr mna, .scalar mxc =>
        let (job, g1) := opVecScalar g self iclamp_vs_spv [self, mna] mxc
        (.ok none, { self with job := some job }, g1)
    | .scalar mnc, .scalar mxc =>
        let (job, g1) := opVec2Scalar g self iclamp_ss_spv [self] mnc mxc
        (.ok none, { self with job := some job }, g1)

/-- Embeds `Array.wait`: if `self.job is not None`, block on it
(`self.job.wait()`, logged in `hostWaits`) and clear the reference
(`self.job = None`); otherwise do nothing. -/
def wait (g : GPUState) (self : Array) : Array × GPUState :=
  match self.job with
  | some j =>
      ({ self with job := none }, { g with hostWaits := g.hostWaits ++ [j] })
  | none => (self, g)

/-- Embeds `Array.__getitem__`: `self.wait()` then read `self.array[key]`
(the host-side value itself is not modelled). -/
def getItem (g : GPUState) (self : Array) : Array × GPUState :=
  wait g self

/-- Embeds `Array.__str__`: `self.wait()` then `str(self.array)`. -/
def toStr (g : GPUState) (self : Array) : Array × GPUState :=
  wait g self

/-- Embeds `Array.__array__`: `self.wait()` then return `self.array`. -/
def toNDArray (g : GPUState) (self : Array) : Array × GPUState :=
  wait g self

/-- Embeds `Array.__setitem__`: the single statement
`self.array[key] = value` — a host-side write into the buffer (logged in
`hostWrites`), with no wait and no change to the pending-job reference. -/
def setItem (g : GPUState) (self : Array) : Array × GPUState :=
  (self, { g with hostWrites := g.hostWrites ++ [self.bufferId] })

/-- Wait-semaphore list of the most recent submission (empty when no
submission was issued yet); observation helper for the theorems below. -/
def lastSemaphores (g : GPUState) : List Nat :=
  match g.submissions.getLast? with
  | some s => s.semaphores
  | none => []

/-- Shader file of the most recent submission; observation helper. -/
def lastSpv (g : GPUState) : Option String :=
  (g.submissions.getLast?).map (·.key.spv)

/-- Workgroup sizes and data shape of the most recent submission;
observation helper. -/
def lastDispatch (g : GPUState) : Option (Nat × Nat × Nat × DataShape) :=
  (g.submissions.getLast?).map
    (fun s => (s.key.local_size_x, s.key.local_size_y, s.key.local_size_z,
               s.dshape))

/-- Fresh GPU fixture for concrete witnesses. -/
def gEx : GPUState := GPUState.init

/-- Fixture: a `(2, 3)` array with no pending job. -/
def aEx : Array := ⟨[2, 3], 0, 6, none⟩

/-- Fixture: a `(3, 2)` array — shape-incompatible with `aEx`. -/
def bEx : Array := ⟨[3, 2], 1, 6, none⟩

/-- Fixture: a `(2, 3)` array with pending job `5`. -/
def cEx : Array := ⟨[2, 3], 1, 6, some 5⟩

/-- Fixture: a one-dimensional array of 3 elements. -/
def a3Ex : Array := ⟨[3], 0, 3, none⟩

/-- Fixture: a one-dimensional array of 4 elements. -/
def a4Ex : Array := ⟨[4], 1, 4, none⟩

/-- Fixture: GPU state after submitting the `add` kernel over `a3Ex` and
then over `a4Ex` — two submissions differing only in element count. -/
def gSizesEx : GPUState :=
  (opVec (opVec GPUState.init a3Ex add_spv [a3Ex]).2 a4Ex add_spv [a4Ex]).2

/-- Fixture: cache key for the witness of the cache-hit case. -/
def kEx : OpKey := ⟨add_spv, 3, .vector 6, 64, 1, 1⟩

/-- Fixture: GPU state whose compiled-operation cache already holds `kEx`
with handle `7`. -/
def gCacheEx : GPUState := ⟨[(kEx, 7)], 8, 2, 0, [], [], []⟩

/-- Fixture: a `(2, 3)` operand for matmul, pending job `4`. -/
def mAEx : Array := ⟨[2, 3], 0, 6, some 4⟩

/-- Fixture: a `(3, 4)` operand for matmul, no pending job. -/
def mBEx : Array := ⟨[3, 4], 1, 12, none⟩

/-- Fixture: a `(4, 5)` array — inner-dimension-incompatible with `mAEx`. -/
def mCEx : Array := ⟨[4, 5], 2, 20, none⟩

theorem check_shape_of_ne {a b : Array} (h : a.shape ≠ b.shape) :
    check_shape a b = .error "Incompatible shapes" := by
  simp [check_shape, h]

theorem check_shape_of_eq {a b : Array} (h : a.shape = b.shape) :
    check_shape a b = .ok () := by
  simp [check_shape, h]

theorem getLast?_append_singleton {α : Type} (l : List α) (x : α) :
    (l ++ [x]).getLast? = some x := by
  rw [List.getLast?_append_cons]
  rfl

/-- Claim C1: every binary elementwise operation on two Arrays (add,
subtract, multiply, divide, max, min, power, and the in-place siblings)
raises a `ValueError` when the operand shapes are not exactly equal, before
any device submission, leaving both operands and the GPU state (cache,
submission log, pending-job references) unchanged. -/
theorem binary_shape_mismatch_fatal_no_mutation (g : GPUState) (a b : Array)
    (h : a.shape ≠ b.shape) :
    (∀ spv, opVec3 g a b spv = (.error "Incompatible shapes", a, b, g)) ∧
    (∀ spv, opVec2i g a b spv = (.error "Incompatible shapes", a, b, g)) ∧
    add g a (.arr b) = (.error "Incompatible shapes", a, g) ∧
    sub g a (.arr b) = (.error "Incompatible shapes", a, g) ∧
    mul g a (.arr b) = (.error "Incompatible shapes", a, g) ∧
    truediv g a (.arr b) = (.error "Incompatible shapes", a, g) ∧
    pow g a (.arr b) = (.error "Incompatible shapes", a, g) ∧
    max g a (.arr b) false = (.error "Incompatible shapes", a, g) ∧
    min g a (.arr b) false = (.error "Incompatible shapes", a, g) ∧
    iadd g a (.arr b) = (.error "Incompatible shapes", a, g) ∧
    isub g a (.arr b) = (.error "Incompatible shapes", a, g) ∧
    imul g a (.arr b) = (.error "Incompatible shapes", a, g) ∧
    itruediv g a (.arr b) = (.error "Incompatible shapes", a, g) ∧
    ipow g a (.arr b) = (.error "Incompatible shapes", a, g) ∧
    max g a (.arr b) true = (.error "Incompatible shapes", a, g) ∧
    min g a (.arr b) true = (.error "Incompatible shapes", a, g) := by
  have h3 : ∀ spv, opVec3 g a b spv = (.error "Incompatible shapes", a, b, g) := by
    intro spv
    simp [opVec3, check_shape_of_ne h]
  have h2 : ∀ spv, opVec2i g a b spv = (.error "Incompatible shapes", a, b, g) := by
    intro spv
    simp [opVec2i, check_shape_of_ne h]
  refine ⟨h3, h2, ?_, ?_, ?_, ?_, ?_, ?_, ?_, ?_, ?_, ?_, ?_, ?_, ?_, ?_⟩ <;>
    simp [add, sub, mul, truediv, pow, max, min,
          iadd, isub, imul, itruediv, ipow, h3, h2, Except.map]

/-- Witness for the shape-mismatch claim: adding shape `(2,3)` to shape
`(3,2)` raises and leaves the fresh GPU state untouched. -/
theorem binary_shape_mismatch_fatal_no_mutation_witness :
    add gEx aEx (.arr bEx) = (.error "Incompatible shapes", aEx, gEx) :=
  (binary_shape_mismatch_fatal_no_mutation gEx aEx bEx (by decide)).2.2.1

theorem createOp_submissions (g : GPUState) (k : OpKey) :
    (createOp g k).2.submissions = g.submissions := by
  cases hfind : findOp g.opCache k <;> simp [createOp, hfind]

theorem createOp_nextJob (g : GPUState) (k : OpKey) :
    (createOp g k).2.nextJob = g.nextJob := by
  cases hfind : findOp g.opCache k <;> simp [createOp, hfind]

theorem createOp_nextBuffer (g : GPUState) (k : OpKey) :
    (createOp g k).2.nextBuffer = g.nextBuffer := by
  cases hfind : findOp g.opCache k <;> simp [createOp, hfind]

theorem createOp_hostWaits (g : GPUState) (k : OpKey) :
    (createOp g k).2.hostWaits = g.hostWaits := by
  cases hfind : findOp g.opCache k <;> simp [createOp, hfind]

theorem gpuSubmit_fst (g : GPUState) (spv : String) (lsx lsy lsz : Nat)
    (bufs : List Nat) (dshape : DataShape) (params : Params)
    (sems : List Nat) :
    (gpuSubmit g spv lsx lsy lsz bufs dshape params sems).1 = g.nextJob := by
  simp [gpuSubmit, createOp_nextJob]

theorem gpuSubmit_submissions (g : GPUState) (spv : String)
    (lsx lsy lsz : Nat) (bufs : List Nat) (dshape : DataShape)
    (params : Params) (sems : List Nat) :
    (gpuSubmit g spv lsx lsy lsz bufs dshape params sems).2.submissions
      = g.submissions ++
        [⟨⟨spv, bufs.length, params, lsx, lsy, lsz⟩,
          (createOp g ⟨spv, bufs.length, params, lsx, lsy, lsz⟩).1,
          bufs, dshape, params, sems⟩] := by
  simp [gpuSubmit, createOp_submissions]

theorem gpuSubmit_getLast (g : GPUState) (spv : String)
    (lsx lsy lsz : Nat) (bufs : List Nat) (dshape : DataShape)
    (params : Params) (sems : List Nat) :
    ((gpuSubmit g spv lsx lsy lsz bufs dshape params sems).2.submissions).getLast?
      = some ⟨⟨spv, bufs.length, params, lsx, lsy, lsz⟩,
          (createOp g ⟨spv, bufs.length, params, lsx, lsy, lsz⟩).1,
          bufs, dshape, params, sems⟩ := by
  rw [gpuSubmit_submissions, getLast?_append_singleton]

/-- Claim C2: the compiled-operation cache is a pure memo on the exact
signature `(kernel, buffer count, parameter packing, workgroup sizes)`:
a lookup hit returns the stored handle with no state change (no
compilation), a repeated creation with an identical signature returns the
handle produced the first time, and two concrete submissions differing
only in element count (sizes 3 and 4) produce two distinct cache entries
with distinct handles. -/
theorem compiled_op_cache_memoizes :
    (∀ g k, createOp (createOp g k).2 k = ((createOp g k).1, (createOp g k).2)) ∧
    (∀ g k h, findOp g.opCache k = some h → createOp g k = (h, g)) ∧
    gSizesEx.opCache.length = 2 ∧
    gSizesEx.submissions.map (·.op) = [0, 1] := by
  refine ⟨?_, ?_, ?_, ?_⟩
  · intro g k
    cases hfind : findOp g.opCache k with
    | some h => simp [createOp, hfind]
    | none => simp [createOp, hfind, findOp]
  · intro g k h hfind
    simp [createOp, hfind]
  · decide
  · decide

/-- Witness for the cache claim: a state whose cache already holds `kEx`
with handle `7` returns that handle and is left unchanged. -/
theorem compiled_op_cache_memoizes_witness :
    createOp gCacheEx kEx = (7, gCacheEx) :=
  compiled_op_cache_memoizes.2.1 gCacheEx kEx 7 (by decide)

/-- Claim C3: every submission's wait-dependency list is exactly the
pending jobs of the operand arrays that have one (`[b.job.getSemaphore()
for b in buffers if b.job is not None]`); matmul waits on the pending jobs
of both operands; and an in-place binary operation captures the left
operand's prior pending job as a dependency and only then overwrites the
pending-job reference with the freshly returned job. -/
theorem submission_wait_dependencies :
    (∀ g (self : Array) spv buffers,
        (((opVec g self spv buffers).2.submissions).getLast?).map (·.semaphores)
          = some (buffers.filterMap (·.job))) ∧
    (∀ g (self : Array) spv buffers c,
        (((opVecScalar g self spv buffers c).2.submissions).getLast?).map (·.semaphores)
          = some (buffers.filterMap (·.job))) ∧
    (∀ g (self : Array) spv buffers c1 c2,
        (((opVec2Scalar g self spv buffers c1 c2).2.submissions).getLast?).map (·.semaphores)
          = some (buffers.filterMap (·.job))) ∧
    (∀ g (a b : Array),
        ¬(a.shape.length > 3 ∨ b.shape.length > 3 ∨
            a.shape.getLastD 0 ≠ b.shape.headD 0) →
        (((matmul g a b).2.2.2.submissions).getLast?).map (·.semaphores)
          = some ([a, b].filterMap (·.job))) ∧
    (∀ g (a b : Array) spv, a.shape = b.shape →
        (opVec2i g a b spv).2.1.job = some g.nextJob ∧
        lastSemaphores (opVec2i g a b spv).2.2.2 = [a, b].filterMap (·.job) ∧
        (∀ j, a.job = some j →
          j ∈ lastSemaphores (opVec2i g a b spv).2.2.2)) := by
  refine ⟨?_, ?_, ?_, ?_, ?_⟩
  · intro g self spv buffers
    simp [opVec, gpuSubmit_getLast]
  · intro g self spv buffers c
    simp [opVecScalar, gpuSubmit_getLast]
  · intro g self spv buffers c1 c2
    simp [opVec2Scalar, gpuSubmit_getLast]
  · intro g a b h
    simp only [matmul]
    rw [if_neg h]
    simp [newArray, gpuSubmit_getLast]
  · intro g a b spv hs
    have hsem : lastSemaphores (opVec2i g a b spv).2.2.2
        = [a, b].filterMap (·.job) := by
      simp [opVec2i, check_shape_of_eq hs, lastSemaphores, opVec, gpuSubmit_getLast]
    refine ⟨?_, hsem, ?_⟩
    · simp [opVec2i, check_shape_of_eq hs, opVec, gpuSubmit_fst]
    · intro j hj
      rw [hsem]
      simp [List.filterMap_cons, hj]

/-- Witness for the dependency claim: an in-place add of a `(2,3)` array
with pending job `5` captures job `5` as a wait-dependency, and matmul of
`(2,3)` (pending job `4`) with `(3,4)` waits exactly on job `4`. -/
theorem submission_wait_dependencies_witness :
    ((opVec2i gEx cEx aEx iadd_spv).2.1.job = some 0 ∧
      5 ∈ lastSemaphores (opVec2i gEx cEx aEx iadd_spv).2.2.2) ∧
    (((matmul gEx mAEx mBEx).2.2.2.submissions).getLast?).map (·.semaphores)
      = some [4] := by
  have h := submission_wait_dependencies.2.2.2.2 gEx cEx aEx iadd_spv (by decide)
  have hm := submission_wait_dependencies.2.2.2.1 gEx mAEx mBEx (by decide)
  exact ⟨⟨h.1, h.2.2 5 (by decide)⟩, hm⟩

/-- Claim C4: matmul raises a fatal shape error — before any submission and
without mutating anything — exactly when an operand rank exceeds 3 or the
trailing dimension of `a` differs from the leading dimension of `b`;
otherwise the result shape is `a.shape[:-1] ++ b.shape[1:]` (collapsed to
`(1,)` when empty) and the packed parameters are `(rowA, contractSize,
columnB)` with row count 1 for a rank-1 left operand, column count 1 for a
rank-1 right operand, and contraction length the shared dimension. -/
theorem matmul_validation_and_result_shape (g : GPUState) (a b : Array)
    (_ha : a.shape ≠ []) (_hb : b.shape ≠ []) :
    ((a.shape.length > 3 ∨ b.shape.length > 3 ∨
        a.shape.getLastD 0 ≠ b.shape.headD 0) →
      matmul g a b = (.error "Incompatible shapes", a, b, g)) ∧
    (¬(a.shape.length > 3 ∨ b.shape.length > 3 ∨
        a.shape.getLastD 0 ≠ b.shape.headD 0) →
      (matmul g a b).1
        = .ok ⟨(if a.shape.dropLast ++ b.shape.tail = [] then [1]
                else a.shape.dropLast ++ b.shape.tail),
               g.nextBuffer,
               (if a.shape.dropLast ++ b.shape.tail = [] then [1]
                else a.shape.dropLast ++ b.shape.tail).prod,
               some g.nextJob⟩ ∧
      (((matmul g a b).2.2.2.submissions).getLast?).map (·.params)
        = some (.matmul (if a.shape.length > 1 then a.shape.headD 0 else 1)
                        (a.shape.getLastD 0)
                        (if b.shape.length > 1 then b.shape.getD 1 0 else 1))) := by
  constructor
  · intro h
    simp only [matmul]
    rw [if_pos h]
  · intro h
    constructor
    · simp only [matmul]
      rw [if_neg h]
      simp [newArray, gpuSubmit_fst]
    · simp only [matmul]
      rw [if_neg h]
      simp [newArray, gpuSubmit_getLast]

/-- Witness for the matmul claim: `(2,3) @ (3,4)` yields shape `(2,4)` with
parameters `(2, 3, 4)`, and `(2,3) @ (4,5)` raises with no submission. -/
theorem matmul_validation_and_result_shape_witness :
    ((matmul gEx mAEx mBEx).1 = .ok ⟨[2, 4], 0, 8, some 0⟩ ∧
      (((matmul gEx mAEx mBEx).2.2.2.submissions).getLast?).map (·.params)
        = some (.matmul 2 3 4)) ∧
    matmul gEx mAEx mCEx = (.error "Incompatible shapes", mAEx, mCEx, gEx) :=
  ⟨(matmul_validation_and_result_shape gEx mAEx mBEx (by decide) (by decide)).2
      (by decide),
   (matmul_validation_and_result_shape gEx mAEx mCEx (by decide) (by decide)).1
      (by decide)⟩

/-- Claim C5: materialization — `__getitem__`, `__array__`, `__str__` —
blocks on the pending job if one exists and then clears the pending-job
reference; a second materialization finds no pending job and performs no
wait. -/
theorem materialization_waits_then_clears (g : GPUState) (a : Array) (j : Nat)
    (hj : a.job = some j) :
    getItem g a = ({ a with job := none },
                   { g with hostWaits := g.hostWaits ++ [j] }) ∧
    toStr g a = ({ a with job := none },
                 { g with hostWaits := g.hostWaits ++ [j] }) ∧
    toNDArray g a = ({ a with job := none },
                     { g with hostWaits := g.hostWaits ++ [j] }) ∧
    (∀ g' (b : Array), b.job = none →
        getItem g' b = (b, g') ∧ toStr g' b = (b, g') ∧
        toNDArray g' b = (b, g')) ∧
    getItem (getItem g a).2 (getItem g a).1
      = ((getItem g a).1, (getItem g a).2) := by
  refine ⟨by simp [getItem, wait, hj], by simp [toStr, wait, hj],
          by simp [toNDArray, wait, hj], ?_, by simp [getItem, wait, hj]⟩
  intro g' b hb
  refine ⟨?_, ?_, ?_⟩ <;> simp [getItem, toStr, toNDArray, wait, hb]

/-- Witness for the materialization claim: reading a `(2,3)` array with
pending job `5` waits on job `5`, clears the reference, and a repeated
read is a no-op. -/
theorem materialization_waits_then_clears_witness :
    getItem gEx cEx = (⟨[2, 3], 1, 6, none⟩, ⟨[], 0, 0, 0, [], [5], []⟩) ∧
    getItem (getItem gEx cEx).2 (getItem gEx cEx).1
      = ((getItem gEx cEx).1, (getItem gEx cEx).2) :=
  ⟨(materialization_waits_then_clears gEx cEx 5 rfl).1,
   (materialization_waits_then_clears gEx cEx 5 rfl).2.2.2.2⟩

/-- Claim C6: the kernel identifiers follow the naming convention — base
name for out-of-place array-array, an `i` prefixed for the in-place
sibling, `_scalar` suffixed for array-plus-scalar, and `r` prefixed on the
scalar form for the reversed variants, which exist exactly for subtract,
divide and power; reflected scalar addition and multiplication dispatch to
the same non-reversed `_scalar` kernels as the array-scalar forms. -/
theorem kernel_naming_convention :
    (add_spv = shaderPath ("add" ++ ".spv") ∧
     iadd_spv = shaderPath ("i" ++ "add" ++ ".spv") ∧
     add_scalar_spv = shaderPath ("add" ++ "_scalar" ++ ".spv") ∧
     iadd_scalar_spv = shaderPath ("i" ++ "add" ++ "_scalar" ++ ".spv")) ∧
    (sub_spv = shaderPath ("sub" ++ ".spv") ∧
     isub_spv = shaderPath ("i" ++ "sub" ++ ".spv") ∧
     sub_scalar_spv = shaderPath ("sub" ++ "_scalar" ++ ".spv") ∧
     isub_scalar_spv = shaderPath ("i" ++ "sub" ++ "_scalar" ++ ".spv") ∧
     rsub_scalar_spv = shaderPath ("r" ++ "sub" ++ "_scalar" ++ ".spv")) ∧
    (mul_spv = shaderPath ("mul" ++ ".spv") ∧
     imul_spv = shaderPath ("i" ++ "mul" ++ ".spv") ∧
     mul_scalar_spv = shaderPath ("mul" ++ "_scalar" ++ ".spv") ∧
     imul_scalar_spv = shaderPath ("i" ++ "mul" ++ "_scalar" ++ ".spv")) ∧
    (div_spv = shaderPath ("div" ++ ".spv") ∧
     idiv_spv = shaderPath ("i" ++ "div" ++ ".spv") ∧
     div_scalar_spv = shaderPath ("div" ++ "_scalar" ++ ".spv") ∧
     idiv_scalar_spv = shaderPath ("i" ++ "div" ++ "_scalar" ++ ".spv") ∧
     rdiv_scalar_spv = shaderPath ("r" ++ "div" ++ "_scalar" ++ ".spv")) ∧
    (max_spv = shaderPath ("max" ++ ".spv") ∧
     imax_spv = shaderPath ("i" ++ "max" ++ ".spv") ∧
     max_scalar_spv = shaderPath ("max" ++ "_scalar" ++ ".spv") ∧
     imax_scalar_spv = shaderPath ("i" ++ "max" ++ "_scalar" ++ ".spv")) ∧
    (min_spv = shaderPath ("min" ++ ".spv") ∧
     imin_spv = shaderPath ("i" ++ "min" ++ ".spv") ∧
     min_scalar_spv = shaderPath ("min" ++ "_scalar" ++ ".spv") ∧
     imin_scalar_spv = shaderPath ("i" ++ "min" ++ "_scalar" ++ ".spv")) ∧
    (pow_spv = shaderPath ("pow" ++ ".spv") ∧
     ipow_spv = shaderPath ("i" ++ "pow" ++ ".spv") ∧
     pow_scalar_spv = shaderPath ("pow" ++ "_scalar" ++ ".spv") ∧
     ipow_scalar_spv = shaderPath ("i" ++ "pow" ++ "_scalar" ++ ".spv") ∧
     rpow_scalar_spv = shaderPath ("r" ++ "pow" ++ "_scalar" ++ ".spv")) ∧
    (∀ g (a : Array) c,
        add g a (.scalar c)
          = (.ok (radd g a c).1, (radd g a c).2.1, (radd g a c).2.2)) ∧
    (∀ g (a : Array) c,
        mul g a (.scalar c)
          = (.ok (rmul g a c).1, (rmul g a c).2.1, (rmul g a c).2.2)) ∧
    (∀ g (a : Array) c, lastSpv (radd g a c).2.2
        = some (shaderPath ("add" ++ "_scalar" ++ ".spv"))) ∧
    (∀ g (a : Array) c, lastSpv (rmul g a c).2.2
        = some (shaderPath ("mul" ++ "_scalar" ++ ".spv"))) ∧
    (∀ g (a : Array) c, lastSpv (rsub g a c).2.2
        = some (shaderPath ("r" ++ "sub" ++ "_scalar" ++ ".spv"))) ∧
    (∀ g (a : Array) c, lastSpv (rtruediv g a c).2.2
        = some (shaderPath ("r" ++ "div" ++ "_scalar" ++ ".spv"))) ∧
    (∀ g (a : Array) c, lastSpv (rpow g a c).2.2
        = some (shaderPath ("r" ++ "pow" ++ "_scalar" ++ ".spv"))) := by
  refine ⟨by decide, by decide, by decide, by decide, by decide, by decide,
          by decide, ?_, ?_, ?_, ?_, ?_, ?_, ?_⟩ <;>
    intro g a c <;>
    simp [add, mul, radd, rmul, rsub, rtruediv, rpow, opVecScalar2,
          opVecScalar, newArray, lastSpv, gpuSubmit_getLast] <;>
    decide

/-- Claim C7: clamp checks every Array-valued bound (`min` first, then
`max`) for exact shape equality with `self`, raising before any submission
on a mismatch, and otherwise selects exactly one of the eight kernel
variants by the bound kinds combined with the `inplace` flag. -/
theorem clamp_bound_checks_and_dispatch (g : GPUState) (self : Array) :
    (∀ (mna : Array) (mx : Operand) ip, self.shape ≠ mna.shape →
        clamp g self (.arr mna) mx ip = (.error "Incompatible shapes", self, g)) ∧
    (∀ (c : Int) (mxa : Array) ip, self.shape ≠ mxa.shape →
        clamp g self (.scalar c) (.arr mxa) ip
          = (.error "Incompatible shapes", self, g)) ∧
    (∀ (mna mxa : Array) ip, self.shape = mna.shape → self.shape ≠ mxa.shape →
        clamp g self (.arr mna) (.arr mxa) ip
          = (.error "Incompatible shapes", self, g)) ∧
    (∀ (mna mxa : Array), self.shape = mna.shape → self.shape = mxa.shape →
        lastSpv (clamp g self (.arr mna) (.arr mxa) false).2.2 = some clamp_spv ∧
        lastSpv (clamp g self (.arr mna) (.arr mxa) true).2.2 = some iclamp_spv) ∧
    (∀ (c : Int) (mxa : Array), self.shape = mxa.shape →
        lastSpv (clamp g self (.scalar c) (.arr mxa) false).2.2
          = some clamp_sv_spv ∧
        lastSpv (clamp g self (.scalar c) (.arr mxa) true).2.2
          = some iclamp_sv_spv) ∧
    (∀ (mna : Array) (c : Int), self.shape = mna.shape →
        lastSpv (clamp g self (.arr mna) (.scalar c) false).2.2
          = some clamp_vs_spv ∧
        lastSpv (clamp g self (.arr mna) (.scalar c) true).2.2
          = some iclamp_vs_spv) ∧
    (∀ (c1 c2 : Int),
        lastSpv (clamp g self (.scalar c1) (.scalar c2) false).2.2
          = some clamp_ss_spv ∧
        lastSpv (clamp g self (.scalar c1) (.scalar c2) true).2.2
          = some iclamp_ss_spv) := by
  refine ⟨?_, ?_, ?_, ?_, ?_, ?_, ?_⟩
  · intro mna mx ip h
    simp [clamp, check_shape_of_ne h]
  · intro c mxa ip h
    simp [clamp, check_shape_of_ne h]
  · intro mna mxa ip h1 h2
    simp [clamp, check_shape_of_eq h1, check_shape_of_ne h2]
  · intro mna mxa h1 h2
    constructor <;>
      simp [clamp, check_shape_of_eq h1, check_shape_of_eq h2,
            opVec, newArray, lastSpv, gpuSubmit_getLast]
  · intro c mxa h
    constructor <;>
      simp [clamp, check_shape_of_eq h,
            opVecScalar, newArray, lastSpv, gpuSubmit_getLast]
  · intro mna c h
    constructor <;>
      simp [clamp, check_shape_of_eq h,
            opVecScalar, newArray, lastSpv, gpuSubmit_getLast]
  · intro c1 c2
    constructor <;>
      simp [clamp, opVec2Scalar, newArray, lastSpv, gpuSubmit_getLast]

/-- Witness for the clamp claim: an Array bound of shape `(3,2)` against a
`(2,3)` array raises; scalar/scalar bounds select the `clamp_ss` kernel
and matching Array/Array bounds select the `clamp` kernel. -/
theorem clamp_bound_checks_and_dispatch_witness :
    clamp gEx aEx (.arr bEx) (.scalar 0) false
      = (.error "Incompatible shapes", aEx, gEx) ∧
    lastSpv (clamp gEx aEx (.scalar 0) (.scalar 1) false).2.2
      = some clamp_ss_spv ∧
    lastSpv (clamp gEx aEx (.arr cEx) (.arr cEx) true).2.2
      = some iclamp_spv := by
  have h := clamp_bound_checks_and_dispatch gEx aEx
  exact ⟨h.1 bEx (.scalar 0) false (by decide),
         (h.2.2.2.2.2.2 0 1).1,
         (h.2.2.2.1 cEx cEx (by decide) (by decide)).2⟩

/-- Claim C8: every out-of-place operation — binary elementwise, scalar-
combined, unary, matmul, clamp — allocates a fresh Array (buffer id drawn
from the allocator) of the result shape, attaches the returned job to that
new Array only, and returns the operand Arrays exactly as they were
(buffers, shapes and pending-job references unchanged). -/
theorem out_of_place_fresh_result_operands_unchanged (g : GPUState) :
    (∀ (a b : Array) spv, a.shape = b.shape →
        (opVec3 g a b spv).1
          = .ok ⟨a.shape, g.nextBuffer, a.shape.prod, some g.nextJob⟩ ∧
        (opVec3 g a b spv).2.1 = a ∧ (opVec3 g a b spv).2.2.1 = b) ∧
    (∀ (a : Array) spv,
        (opVec2o g a spv).1
          = ⟨a.shape, g.nextBuffer, a.shape.prod, some g.nextJob⟩ ∧
        (opVec2o g a spv).2.1 = a) ∧
    (∀ (a : Array) spv c,
        (opVecScalar2 g a spv c).1
          = ⟨a.shape, g.nextBuffer, a.shape.prod, some g.nextJob⟩ ∧
        (opVecScalar2 g a spv c).2.1 = a) ∧
    (∀ (a b : Array),
        ¬(a.shape.length > 3 ∨ b.shape.length > 3 ∨
            a.shape.getLastD 0 ≠ b.shape.headD 0) →
        (matmul g a b).2.1 = a ∧ (matmul g a b).2.2.1 = b) ∧
    (∀ (self mna mxa : Array), self.shape = mna.shape → self.shape = mxa.shape →
        (clamp g self (.arr mna) (.arr mxa) false).1
          = .ok (some ⟨self.shape, g.nextBuffer, self.shape.prod, some g.nextJob⟩) ∧
        (clamp g self (.arr mna) (.arr mxa) false).2.1 = self) ∧
    (∀ (self mxa : Array) (c : Int), self.shape = mxa.shape →
        (clamp g self (.scalar c) (.arr mxa) false).1
          = .ok (some ⟨self.shape, g.nextBuffer, self.shape.prod, some g.nextJob⟩) ∧
        (clamp g self (.scalar c) (.arr mxa) false).2.1 = self) ∧
    (∀ (self mna : Array) (c : Int), self.shape = mna.shape →
        (clamp g self (.arr mna) (.scalar c) false).1
          = .ok (some ⟨self.shape, g.nextBuffer, self.shape.prod, some g.nextJob⟩) ∧
        (clamp g self (.arr mna) (.scalar c) false).2.1 = self) ∧
    (∀ (self : Array) (c1 c2 : Int),
        (clamp g self (.scalar c1) (.scalar c2) false).1
          = .ok (some ⟨self.shape, g.nextBuffer, self.shape.prod, some g.nextJob⟩) ∧
        (clamp g self (.scalar c1) (.scalar c2) false).2.1 = self) := by
  refine ⟨?_, ?_, ?_, ?_, ?_, ?_, ?_, ?_⟩
  · intro a b spv h
    simp [opVec3, check_shape_of_eq h, newArray, opVec, gpuSubmit_fst]
  · intro a spv
    simp [opVec2o, newArray, opVec, gpuSubmit_fst]
  · intro a spv c
    simp [opVecScalar2, newArray, opVecScalar, gpuSubmit_fst]
  · intro a b h
    simp only [matmul]
    rw [if_neg h]
    exact ⟨rfl, rfl⟩
  · intro self mna mxa h1 h2
    simp [clamp, check_shape_of_eq h1, check_shape_of_eq h2,
          newArray, opVec, gpuSubmit_fst]
  · intro self mxa c h
    simp [clamp, check_shape_of_eq h, newArray, opVecScalar, gpuSubmit_fst]
  · intro self mna c h
    simp [clamp, check_shape_of_eq h, newArray, opVecScalar, gpuSubmit_fst]
  · intro self c1 c2
    simp [clamp, newArray, opVec2Scalar, gpuSubmit_fst]

/-- Witness for the out-of-place frame claim: adding two `(2,3)` arrays
returns a fresh result of the same shape carrying the new job, and leaves
both operands — including the pending job `5` of the right operand —
untouched. -/
theorem out_of_place_fresh_result_operands_unchanged_witness :
    (opVec3 gEx aEx cEx add_spv).1 = .ok ⟨[2, 3], 0, 6, some 0⟩ ∧
    (opVec3 gEx aEx cEx add_spv).2.1 = aEx ∧
    (opVec3 gEx aEx cEx add_spv).2.2.1 = cEx :=
  (out_of_place_fresh_result_operands_unchanged gEx).1 aEx cEx add_spv (by decide)

/-- Claim C9: every elementwise, unary and scalar-combined submission
dispatches with workgroup `(64,1,1)` over a one-dimensional data shape
equal to the buffer's total element count (which equals the shape product
at allocation), while every matmul submission dispatches with workgroup
`(1,64,1)` over data shape `(rows, columns, 1)`. -/
theorem workgroup_and_data_shape_convention :
    (∀ g (self : Array) spv buffers,
        lastDispatch (opVec g self spv buffers).2
          = some (64, 1, 1, ⟨self.bufferSize, 1, 1⟩)) ∧
    (∀ g (self : Array) spv buffers c,
        lastDispatch (opVecScalar g self spv buffers c).2
          = some (64, 1, 1, ⟨self.bufferSize, 1, 1⟩)) ∧
    (∀ g (self : Array) spv buffers c1 c2,
        lastDispatch (opVec2Scalar g self spv buffers c1 c2).2
          = some (64, 1, 1, ⟨self.bufferSize, 1, 1⟩)) ∧
    (∀ g shape, ((newArray g shape).1).bufferSize = shape.prod) ∧
    (∀ g (a b : Array),
        ¬(a.shape.length > 3 ∨ b.shape.length > 3 ∨
            a.shape.getLastD 0 ≠ b.shape.headD 0) →
        lastDispatch (matmul g a b).2.2.2
          = some (1, 64, 1,
              ⟨(if a.shape.length > 1 then a.shape.headD 0 else 1),
               (if b.shape.length > 1 then b.shape.getD 1 0 else 1), 1⟩)) := by
  refine ⟨?_, ?_, ?_, ?_, ?_⟩
  · intro g self spv buffers
    simp [opVec, lastDispatch, gpuSubmit_getLast]
  · intro g self spv buffers c
    simp [opVecScalar, lastDispatch, gpuSubmit_getLast]
  · intro g self spv buffers c1 c2
    simp [opVec2Scalar, lastDispatch, gpuSubmit_getLast]
  · intro g shape
    simp [newArray]
  · intro g a b h
    simp only [matmul]
    rw [if_neg h]
    simp [newArray, lastDispatch, gpuSubmit_getLast]

/-- Witness for the workgroup claim: `(2,3) @ (3,4)` dispatches with
workgroup `(1,64,1)` over data shape `(2,4,1)`. -/
theorem workgroup_and_data_shape_convention_witness :
    lastDispatch (matmul gEx mAEx mBEx).2.2.2 = some (1, 64, 1, ⟨2, 4, 1⟩) :=
  workgroup_and_data_shape_convention.2.2.2.2 gEx mAEx mBEx (by decide)

/-- Claim C10: `__setitem__` performs a host-side buffer write with no wait
on the pending job and no change to the pending-job reference — unlike
`__getitem__`, which waits first — so a host write can be issued while a
device write to the same buffer is still pending. -/
theorem setitem_writes_without_wait (g : GPUState) (a : Array) :
    setItem g a = (a, { g with hostWrites := g.hostWrites ++ [a.bufferId] }) ∧
    (setItem g a).1.job = a.job ∧
    (setItem g a).2.hostWaits = g.hostWaits ∧
    (∀ j, a.job = some j →
        (getItem g a).2.hostWaits = g.hostWaits ++ [j] ∧
        (getItem g a).1.job = none) := by
  refine ⟨rfl, rfl, rfl, ?_⟩
  intro j hj
  simp [getItem, wait, hj]

/-- Witness for the setitem claim: writing into a `(2,3)` array with
pending job `5` performs no wait and keeps job `5` pending, while reading
the same array waits on job `5`. -/
theorem setitem_writes_without_wait_witness :
    (setItem gEx cEx).1.job = some 5 ∧
    (setItem gEx cEx).2.hostWaits = ([] : List Nat) ∧
    (getItem gEx cEx).2.hostWaits = [5] := by
  have h := setitem_writes_without_wait gEx cEx
  exact ⟨h.2.1, h.2.2.1, (h.2.2.2 5 rfl).1⟩

end Vulkpy
